import Mathlib

/-!
Verification of the bruno-site repository (Go REST API with gin).

This file shallowly embeds the parts of the source that the checked
properties talk about: the in-memory sliding-window rate limiter, the CORS
middleware and its configuration validator, the SQL-injection string filter,
the input sanitization pipeline, the project CRUD handlers, and the chat /
LLM proxy pipeline.  I/O boundaries (the database, the upstream Ollama HTTP
server, JSON binding) are passed in as explicit data so every definition is
executable.
-/

namespace BrunoSite

/-! ### Go string primitives used by the source

These model the behavior of the Go standard-library calls the source makes:
strings.Contains, strings.ToLower, strings.TrimSpace, strings.HasPrefix,
strings.TrimPrefix, strings.Split and len (UTF-8 bytes).
-/

/-- strings.Contains on character lists: the pattern occurs as a contiguous
substring.  Contains with the empty pattern is true, as in Go. -/
def listContainsSub : List Char → List Char → Bool
  | _, [] => true
  | [], _ :: _ => false
  | a :: l, p :: ps => List.isPrefixOf (p :: ps) (a :: l) || listContainsSub l (p :: ps)

/-- strings.Contains. -/
def strContains (s pat : String) : Bool :=
  listContainsSub s.data pat.data

/-- strings.ToLower (the source only feeds it text where per-character
lowering coincides with Go full Unicode lowering). -/
def goToLower (s : String) : String :=
  ⟨s.data.map Char.toLower⟩

/-- The white-space class trimmed by strings.TrimSpace (unicode.IsSpace on
the code points the source can see). -/
def isGoSpace (c : Char) : Bool :=
  c = ' ' || c = '\t' || c = '\n' || c.toNat = 0x0B || c.toNat = 0x0C ||
  c.toNat = 0x0D || c.toNat = 0x85 || c.toNat = 0xA0

/-- strings.TrimSpace. -/
def goTrimSpace (s : String) : String :=
  ⟨((s.data.dropWhile isGoSpace).reverse.dropWhile isGoSpace).reverse⟩

/-- strings.HasPrefix. -/
def hasPrefixGo (s pre : String) : Bool :=
  List.isPrefixOf pre.data s.data

/-- strings.TrimPrefix. -/
def trimPrefixGo (s pre : String) : String :=
  if hasPrefixGo s pre then ⟨s.data.drop pre.data.length⟩ else s

/-- len(s) in Go counts UTF-8 bytes. -/
def goLen (s : String) : Nat :=
  s.utf8ByteSize

/-- Worker for strings.Split with a nonempty separator: cut before every
non-overlapping occurrence of sep.  The fuel argument (instantiated with
the length of the input) only makes the recursion structural; it never
runs out. -/
def splitGoAux (sep : List Char) : Nat → List Char → List Char → List (List Char)
  | _, [], acc => [acc.reverse]
  | 0, s, acc => [acc.reverse ++ s]
  | fuel + 1, c :: rest, acc =>
    if List.isPrefixOf sep (c :: rest) then
      acc.reverse :: splitGoAux sep fuel (List.drop sep.length (c :: rest)) []
    else
      splitGoAux sep fuel rest (c :: acc)

/-- strings.Split for a nonempty separator (the source only splits on the
scheme separator). -/
def splitGo (s sep : String) : List String :=
  (splitGoAux sep.data s.data.length s.data []).map (fun l => ⟨l⟩)

/-! ### C1: the sliding-window rate limiter (rateLimitMiddleware)

The middleware keeps a package-level map from client IP to the list of
request timestamps; on each request it first drops the entries older than
one minute, writes the pruned list back, rejects with 429 when the pruned
list already holds 100 entries, and otherwise appends the current time and
lets the request through.  Time is modelled in seconds as Nat, matching
now.Sub(reqTime) < time.Minute for past timestamps.
-/

/-- The pruning loop: keep only timestamps strictly younger than one minute. -/
def pruneWindow (now : Nat) (w : List Nat) : List Nat :=
  w.filter (fun t => now - t < 60)

/-- One pass of rateLimitMiddleware for a request from ip at time now:
returns the updated map and true when the request is passed to the handler
(false means the middleware aborted with status 429). -/
def rateLimitStep (m : String → List Nat) (ip : String) (now : Nat) :
    (String → List Nat) × Bool :=
  if 100 ≤ (pruneWindow now (m ip)).length then
    (Function.update m ip (pruneWindow now (m ip)), false)
  else
    (Function.update m ip (pruneWindow now (m ip) ++ [now]), true)

/-- The HTTP outcome of the middleware: a passed request gets the handler
status, a limited one gets 429 with the fixed error body
(respondWithError). -/
def rateLimitResponse (allowed : Bool) (handlerStatus : Nat) : Nat × Option String :=
  if allowed then (handlerStatus, none)
  else (429, some "Rate limit exceeded. Please try again later.")

/-- Run the middleware over a sequence of request times from one client IP,
collecting the pass/limit decision of every request. -/
def rateLimitRun (m : String → List Nat) (ip : String) :
    List Nat → (String → List Nat) × List Bool
  | [] => (m, [])
  | t :: ts =>
    let step := rateLimitStep m ip t
    let rest := rateLimitRun step.1 ip ts
    (rest.1, step.2 :: rest.2)

theorem pruneWindow_eq_self {now : Nat} {w : List Nat}
    (h : ∀ t ∈ w, now - t < 60) : pruneWindow now w = w := by
  simp only [pruneWindow, List.filter_eq_self, decide_eq_true_eq]
  exact h

theorem rateLimitStep_allowed {m : String → List Nat} {ip : String} {t : Nat}
    {w : List Nat} (hm : m ip = w) (hrecent : ∀ a ∈ w, t - a < 60)
    (hlen : w.length < 100) :
    rateLimitStep m ip t = (Function.update m ip (w ++ [t]), true) := by
  rw [rateLimitStep, hm, pruneWindow_eq_self hrecent, if_neg (by omega)]

theorem rateLimitStep_limited {m : String → List Nat} {ip : String} {t : Nat}
    {w : List Nat} (hm : m ip = w) (hrecent : ∀ a ∈ w, t - a < 60)
    (hlen : 100 ≤ w.length) :
    rateLimitStep m ip t = (Function.update m ip w, false) := by
  rw [rateLimitStep, hm, pruneWindow_eq_self hrecent, if_pos hlen]

theorem rateLimitRun_append (m : String → List Nat) (ip : String)
    (ts₁ ts₂ : List Nat) :
    rateLimitRun m ip (ts₁ ++ ts₂) =
      ((rateLimitRun (rateLimitRun m ip ts₁).1 ip ts₂).1,
       (rateLimitRun m ip ts₁).2 ++ (rateLimitRun (rateLimitRun m ip ts₁).1 ip ts₂).2) := by
  induction ts₁ generalizing m with
  | nil => simp [rateLimitRun]
  | cons t ts ih => simp [rateLimitRun, ih]

theorem rateLimitRun_all_allowed (ip : String) (ts : List Nat) :
    ∀ (w : List Nat) (m : String → List Nat), m ip = w →
    (∀ a ∈ w, ∀ b ∈ ts, b - a < 60) →
    (∀ a ∈ ts, ∀ b ∈ ts, b - a < 60) →
    w.length + ts.length ≤ 100 →
    (rateLimitRun m ip ts).2 = List.replicate ts.length true ∧
    (rateLimitRun m ip ts).1 ip = w ++ ts := by
  induction ts with
  | nil =>
    intro w m hm _ _ _
    simp [rateLimitRun, hm]
  | cons t ts ih =>
    intro w m hm hw hts hlen
    have hstep : rateLimitStep m ip t = (Function.update m ip (w ++ [t]), true) :=
      rateLimitStep_allowed hm (fun a ha => hw a ha t (by simp)) (by simp at hlen; omega)
    have hm' : Function.update m ip (w ++ [t]) ip = w ++ [t] :=
      Function.update_same ip (w ++ [t]) m
    have hw' : ∀ a ∈ w ++ [t], ∀ b ∈ ts, b - a < 60 := by
      intro a ha b hb
      rcases List.mem_append.mp ha with h | h
      · exact hw a h b (List.mem_cons_of_mem _ hb)
      · simp at h
        rw [h]
        exact hts _ (List.mem_cons_self _ _) b (List.mem_cons_of_mem _ hb)
    have hts' : ∀ a ∈ ts, ∀ b ∈ ts, b - a < 60 := by
      intro a ha b hb
      exact hts a (List.mem_cons_of_mem _ ha) b (List.mem_cons_of_mem _ hb)
    have hlen' : (w ++ [t]).length + ts.length ≤ 100 := by
      simp at hlen ⊢
      omega
    obtain ⟨h1, h2⟩ := ih (w ++ [t]) (Function.update m ip (w ++ [t])) hm' hw' hts' hlen'
    constructor
    · simp [rateLimitRun, hstep, h1, List.replicate_succ]
    · simp only [rateLimitRun, hstep]
      rw [h2]
      simp

/-- C1: starting from a fresh (empty) rate-limiter map, for any sequence of
101 requests from one client IP whose timestamps all lie within a single
60-second window, the 100th request is passed through (status 200 when the
handler succeeds) while the 101st is rejected with status 429; moreover the
middleware decision is always taken on the window pruned of entries one
minute old or older. -/
theorem rateLimit_hundredth_passes_hundred_first_rejected
    (ip : String) (ts : List Nat)
    (hlen : ts.length = 101)
    (hgap : ∀ a ∈ ts, ∀ b ∈ ts, b - a < 60) :
    (((rateLimitRun (fun _ => []) ip ts).2.map
        (fun ok => (rateLimitResponse ok 200).1))[99]? = some 200) ∧
    (((rateLimitRun (fun _ => []) ip ts).2.map
        (fun ok => (rateLimitResponse ok 200).1))[100]? = some 429) ∧
    (∀ (m : String → List Nat) (now : Nat),
      (rateLimitStep m ip now).2 = decide ((pruneWindow now (m ip)).length < 100) ∧
      ∀ t : Nat, t ∈ pruneWindow now (m ip) ↔ t ∈ m ip ∧ now - t < 60) := by
  have hsplit : ts = ts.take 100 ++ ts.drop 100 := (List.take_append_drop 100 ts).symm
  have htake_len : (ts.take 100).length = 100 := by
    simp [hlen]
  have hdrop_len : (ts.drop 100).length = 1 := by
    simp [hlen]
  obtain ⟨t101, hdrop⟩ : ∃ t, ts.drop 100 = [t] := by
    cases hds : ts.drop 100 with
    | nil => rw [hds] at hdrop_len; simp at hdrop_len
    | cons x l =>
      rw [hds] at hdrop_len
      simp at hdrop_len
      exact ⟨x, by rw [hdrop_len]⟩
  have htake_sub : ∀ a ∈ ts.take 100, a ∈ ts := fun a ha => List.take_subset _ _ ha
  have ht101 : t101 ∈ ts := by
    have : t101 ∈ ts.drop 100 := by rw [hdrop]; simp
    exact List.drop_subset _ _ this
  obtain ⟨houts1, hmap1⟩ :=
    rateLimitRun_all_allowed ip (ts.take 100) [] (fun _ => []) rfl
      (by intro a ha; simp at ha)
      (fun a ha b hb => hgap a (htake_sub a ha) b (htake_sub b hb))
      (by simp [htake_len])
  have hstep101 :
      rateLimitStep (rateLimitRun (fun _ => ([] : List Nat)) ip (ts.take 100)).1 ip t101 =
        (Function.update (rateLimitRun (fun _ => ([] : List Nat)) ip (ts.take 100)).1 ip
          (ts.take 100), false) := by
    refine rateLimitStep_limited (w := ts.take 100) ?_ ?_ ?_
    · rw [hmap1]
      simp
    · intro a ha
      exact hgap a (htake_sub a ha) t101 ht101
    · simp [htake_len]
  have houts : (rateLimitRun (fun _ => ([] : List Nat)) ip ts).2 =
      List.replicate 100 true ++ [false] := by
    conv_lhs => rw [hsplit]
    rw [rateLimitRun_append, hdrop]
    rw [houts1, htake_len]
    simp [rateLimitRun, hstep101]
  refine ⟨?_, ?_, ?_⟩
  · rw [houts]; decide
  · rw [houts]; decide
  · intro m now
    constructor
    · by_cases h : 100 ≤ (pruneWindow now (m ip)).length
      · rw [rateLimitStep, if_pos h]
        simp
        omega
      · rw [rateLimitStep, if_neg h]
        simp
        omega
    · intro t
      simp [pruneWindow, List.mem_filter]

/-- Witness for C1 at a concrete schedule: 101 requests from one IP all at
the same second. -/
theorem rateLimit_hundredth_passes_hundred_first_rejected_witness :
    (List.replicate 101 0).length = 101 ∧
    ((((rateLimitRun (fun _ => []) "203.0.113.7" (List.replicate 101 0)).2.map
        (fun ok => (rateLimitResponse ok 200).1))[99]? = some 200) ∧
     (((rateLimitRun (fun _ => []) "203.0.113.7" (List.replicate 101 0)).2.map
        (fun ok => (rateLimitResponse ok 200).1))[100]? = some 429) ∧
     (∀ (m : String → List Nat) (now : Nat),
       (rateLimitStep m "203.0.113.7" now).2 =
         decide ((pruneWindow now (m "203.0.113.7")).length < 100) ∧
       ∀ t : Nat, t ∈ pruneWindow now (m "203.0.113.7") ↔
         t ∈ m "203.0.113.7" ∧ now - t < 60)) :=
  ⟨by simp,
   rateLimit_hundredth_passes_hundred_first_rejected "203.0.113.7"
     (List.replicate 101 0) (by simp)
     (by intro a ha b hb; simp [List.mem_replicate] at ha hb; omega)⟩

/-! ### C8, C9: CORS middleware and configuration validation (cors.go)

The router applies CORSMiddleware only after ValidateCORSConfig has
accepted the configured allow-list (setupRouter calls log.Fatalf on a
validation error), so every configuration the middleware can see passes
ValidateCORSConfig.  gin.Mode() is threaded through as an explicit
parameter. -/

inductive GinMode where
  | debug
  | release
  | testing
deriving DecidableEq

structure CORSConfig where
  allowedOrigins : List String
  allowedMethods : List String
  allowedHeaders : List String
  exposeHeaders : List String
  allowCredentials : Bool
  maxAge : String

/-- isOriginAllowed: walks the allow-list; a wildcard entry immediately
returns true in debug mode and false otherwise, an exact match returns
true, and the empty list gives false. -/
def isOriginAllowed (mode : GinMode) (origin : String) : List String → Bool
  | [] => false
  | allowed :: rest =>
    if allowed = "*" then decide (mode = GinMode.debug)
    else if allowed = origin then true
    else isOriginAllowed mode origin rest

/-- The response headers set by CORSMiddleware once the origin is accepted. -/
def corsHeaders (config : CORSConfig) (origin : String) : List (String × String) :=
  [("Access-Control-Allow-Origin", origin),
   ("Access-Control-Allow-Methods", String.intercalate ", " config.allowedMethods),
   ("Access-Control-Allow-Headers", String.intercalate ", " config.allowedHeaders),
   ("Access-Control-Expose-Headers", String.intercalate ", " config.exposeHeaders),
   ("Access-Control-Max-Age", config.maxAge)] ++
  (if config.allowCredentials then [("Access-Control-Allow-Credentials", "true")] else [])

/-- Outcome of CORSMiddleware on one request: abortStatus carries the
status of c.JSON/c.Status when the middleware aborts (403 rejection or 200
preflight) and is none when the request continues to the next handler. -/
structure CORSOutcome where
  abortStatus : Option Nat
  headers : List (String × String)
  errorBody : Option String
deriving DecidableEq

/-- CORSMiddleware as a function of the request Origin header and method. -/
def corsMiddleware (mode : GinMode) (config : CORSConfig)
    (origin method : String) : CORSOutcome :=
  if !isOriginAllowed mode origin config.allowedOrigins then
    { abortStatus := some 403, headers := [],
      errorBody := some "CORS: Origin not allowed" }
  else if method = "OPTIONS" then
    { abortStatus := some 200, headers := corsHeaders config origin, errorBody := none }
  else
    { abortStatus := none, headers := corsHeaders config origin, errorBody := none }

/-- isValidOrigin: nonempty, starts with http or https scheme, and what
follows TrimPrefix http and a split on the scheme separator is a two-part
list whose second component is a nonempty domain without spaces. -/
def isValidOrigin (origin : String) : Bool :=
  if origin = "" then false
  else if !(hasPrefixGo origin "http://" || hasPrefixGo origin "https://") then false
  else
    let parts := splitGo (trimPrefixGo origin "http://") "://"
    if parts.length ≠ 2 then false
    else
      let domain := parts.getD 1 ""
      if domain = "" || strContains domain " " then false
      else true

/-- The method whitelist of ValidateCORSConfig. -/
def validMethodGo (m : String) : Bool :=
  m = "GET" || m = "POST" || m = "PUT" || m = "DELETE" || m = "OPTIONS" ||
  m = "HEAD" || m = "PATCH"

/-- ValidateCORSConfig: rejects any wildcard origin, any origin failing
isValidOrigin, and any method outside the whitelist; first failure wins. -/
def validateCORSConfig (config : CORSConfig) : Except String Unit :=
  match config.allowedOrigins.find? (fun o => o = "*") with
  | some _ => .error "CORS: Wildcard origin * is not allowed for security reasons"
  | none =>
    match config.allowedOrigins.find? (fun o => !isValidOrigin o) with
    | some o => .error ("CORS: Invalid origin format: " ++ o)
    | none =>
      match config.allowedMethods.find? (fun m => !validMethodGo m) with
      | some m => .error ("CORS: Invalid method: " ++ m)
      | none => .ok ()

theorem validateCORS_ok_no_wildcard {config : CORSConfig}
    (h : validateCORSConfig config = .ok ()) : "*" ∉ config.allowedOrigins := by
  intro hmem
  rw [validateCORSConfig] at h
  rcases hfind : config.allowedOrigins.find? (fun o => o = "*") with _ | o
  · rw [List.find?_eq_none] at hfind
    exact absurd (by simp) (hfind "*" hmem)
  · rw [hfind] at h
    cases h

theorem validateCORS_ok_origins_valid {config : CORSConfig}
    (h : validateCORSConfig config = .ok ()) :
    ∀ o ∈ config.allowedOrigins, isValidOrigin o = true := by
  intro o hmem
  rw [validateCORSConfig] at h
  rcases hf1 : config.allowedOrigins.find? (fun o => o = "*") with _ | x
  · rw [hf1] at h
    rcases hf2 : config.allowedOrigins.find? (fun o => !isValidOrigin o) with _ | y
    · rw [List.find?_eq_none] at hf2
      have := hf2 o hmem
      simp at this
      exact this
    · rw [hf2] at h
      cases h
  · rw [hf1] at h
    cases h

theorem isValidOrigin_shape {o : String} (h : isValidOrigin o = true) :
    o ≠ "" ∧ (hasPrefixGo o "http://" || hasPrefixGo o "https://") = true := by
  constructor
  · intro he
    rw [isValidOrigin, if_pos he] at h
    cases h
  · by_contra hp
    rw [isValidOrigin] at h
    by_cases he : o = ""
    · rw [if_pos he] at h
      cases h
    · rw [if_neg he] at h
      have hb : (!(hasPrefixGo o "http://" || hasPrefixGo o "https://")) = true := by
        simp only [Bool.not_eq_true] at hp
        simp [hp]
      rw [if_pos hb] at h
      cases h

theorem isOriginAllowed_eq_mem {mode : GinMode} {origin : String} {l : List String}
    (hstar : "*" ∉ l) : isOriginAllowed mode origin l = true ↔ origin ∈ l := by
  induction l with
  | nil => simp [isOriginAllowed]
  | cons a rest ih =>
    have ha : a ≠ "*" := fun h => hstar (h ▸ List.mem_cons_self _ _)
    have hstar' : "*" ∉ rest := fun h => hstar (List.mem_cons_of_mem _ h)
    rw [isOriginAllowed, if_neg ha]
    by_cases hao : a = origin
    · simp [hao]
    · rw [if_neg hao, ih hstar']
      constructor
      · exact fun h => List.mem_cons_of_mem _ h
      · intro h
        rcases List.mem_cons.mp h with h | h
        · exact absurd h.symm hao
        · exact h

/-- C8: under any allow-list accepted by ValidateCORSConfig (which the
router enforces at startup), a request whose Origin header is not in the
allow-list is aborted with status 403, and a request whose Origin header
exactly equals an entry of the allow-list gets an
Access-Control-Allow-Origin response header equal to that origin and is
not rejected with 403. -/
theorem cors_allowlist_enforced (mode : GinMode) (config : CORSConfig)
    (origin method : String)
    (hvalid : validateCORSConfig config = .ok ()) :
    (origin ∉ config.allowedOrigins →
      corsMiddleware mode config origin method =
        { abortStatus := some 403, headers := [],
          errorBody := some "CORS: Origin not allowed" }) ∧
    (origin ∈ config.allowedOrigins →
      ("Access-Control-Allow-Origin", origin) ∈
        (corsMiddleware mode config origin method).headers ∧
      (corsMiddleware mode config origin method).abortStatus ≠ some 403) := by
  have hstar := validateCORS_ok_no_wildcard hvalid
  constructor
  · intro hmem
    have hno : isOriginAllowed mode origin config.allowedOrigins = false := by
      rw [← Bool.not_eq_true, isOriginAllowed_eq_mem hstar]
      exact hmem
    rw [corsMiddleware, hno]
    simp
  · intro hmem
    have hyes : isOriginAllowed mode origin config.allowedOrigins = true :=
      (isOriginAllowed_eq_mem hstar).mpr hmem
    rw [corsMiddleware, hyes]
    by_cases hm : method = "OPTIONS" <;> simp [hm, corsHeaders]

/-- A fixed well-formed CORS configuration used to witness the CORS claims. -/
def corsDemoConfig : CORSConfig :=
  { allowedOrigins := ["https://lucena.cloud"],
    allowedMethods := ["GET", "POST", "PUT", "DELETE", "OPTIONS"],
    allowedHeaders := ["Origin", "Content-Type", "Accept"],
    exposeHeaders := ["Content-Length"],
    allowCredentials := true,
    maxAge := "12h" }

/-- Witness for C8 at a production-style configuration, a disallowed evil
origin and an allow-listed one. -/
theorem cors_allowlist_enforced_witness :
    validateCORSConfig corsDemoConfig = .ok () ∧
    (("https://evil.example" ∉ corsDemoConfig.allowedOrigins →
      corsMiddleware GinMode.release corsDemoConfig "https://evil.example" "GET" =
        { abortStatus := some 403, headers := [],
          errorBody := some "CORS: Origin not allowed" }) ∧
     ("https://evil.example" ∈ corsDemoConfig.allowedOrigins →
      ("Access-Control-Allow-Origin", "https://evil.example") ∈
        (corsMiddleware GinMode.release corsDemoConfig "https://evil.example" "GET").headers ∧
      (corsMiddleware GinMode.release corsDemoConfig "https://evil.example" "GET").abortStatus ≠
        some 403)) :=
  ⟨by rfl,
   cors_allowlist_enforced GinMode.release corsDemoConfig "https://evil.example" "GET"
     (by rfl)⟩

/-- C9: under any allow-list accepted by ValidateCORSConfig, every entry
starts with an http or https scheme, the empty string is never an entry,
and a request with no Origin header (gin returns the empty string for a
missing header) is rejected with 403 — origin-less clients cannot reach
any handler. -/
theorem cors_missing_origin_rejected (mode : GinMode) (config : CORSConfig)
    (method : String)
    (hvalid : validateCORSConfig config = .ok ()) :
    (∀ o ∈ config.allowedOrigins,
      (hasPrefixGo o "http://" || hasPrefixGo o "https://") = true) ∧
    "" ∉ config.allowedOrigins ∧
    corsMiddleware mode config "" method =
      { abortStatus := some 403, headers := [],
        errorBody := some "CORS: Origin not allowed" } := by
  have h16 := validateCORS_ok_origins_valid hvalid
  have hstar := validateCORS_ok_no_wildcard hvalid
  have hempty : "" ∉ config.allowedOrigins := by
    intro hmem
    exact absurd rfl (isValidOrigin_shape (h16 "" hmem)).1
  refine ⟨fun o ho => (isValidOrigin_shape (h16 o ho)).2, hempty, ?_⟩
  have hno : isOriginAllowed mode "" config.allowedOrigins = false := by
    rw [← Bool.not_eq_true, isOriginAllowed_eq_mem hstar]
    exact hempty
  rw [corsMiddleware, hno]
  simp

/-- Witness for C9 at the same concrete configuration. -/
theorem cors_missing_origin_rejected_witness :
    validateCORSConfig corsDemoConfig = .ok () ∧
    ((∀ o ∈ corsDemoConfig.allowedOrigins,
       (hasPrefixGo o "http://" || hasPrefixGo o "https://") = true) ∧
     "" ∉ corsDemoConfig.allowedOrigins ∧
     corsMiddleware GinMode.release corsDemoConfig "" "GET" =
       { abortStatus := some 403, headers := [],
         errorBody := some "CORS: Origin not allowed" }) :=
  ⟨by rfl,
   cors_missing_origin_rejected GinMode.release corsDemoConfig "GET" (by rfl)⟩

/-! ### C10: the SQL-injection string filter
(SQLInjectionProtectionMiddleware, containsSQLInjectionPattern) -/

/-- The blacklist of containsSQLInjectionPattern, in source order.  Note the
trailing bare fragments with a single trailing space and the bare comment
token of two dashes. -/
def sqlPatterns : List String :=
  ["union select", "union all select", "drop table", "delete from",
   "insert into", "update set", "alter table", "create table",
   "exec(", "execute(", "xp_", "sp_", "--", "/*", "*/",
   "waitfor delay", "benchmark(", "sleep(", "load_file(",
   "into outfile", "into dumpfile", "information_schema",
   "update ", "set ", "where ", "select ", "from "]

/-- containsSQLInjectionPattern: empty input is clean, otherwise the
lower-cased input must avoid every blacklist substring. -/
def containsSQLInjectionPattern (input : String) : Bool :=
  if input = "" then false
  else sqlPatterns.any (fun p => strContains (goToLower input) p)

/-- Outcome of a request filter: blocked carries the status and error body
of the c.JSON call issued before c.Abort, passed means c.Next() ran (the
route handler was reached). -/
inductive FilterOutcome where
  | blocked (status : Nat) (msg : String)
  | passed
deriving DecidableEq

/-- SQLInjectionProtectionMiddleware: scan every query-parameter value and
every path-parameter value; any hit aborts with 400 before the route
handler runs. -/
def sqlInjectionProtectionMiddleware (queryParams : List (String × List String))
    (pathParams : List (String × String)) : FilterOutcome :=
  if queryParams.any (fun kv => kv.2.any (fun v => containsSQLInjectionPattern v)) then
    .blocked 400 "Invalid input detected"
  else if pathParams.any (fun kv => containsSQLInjectionPattern kv.2) then
    .blocked 400 "Invalid input detected"
  else
    .passed

theorem strContains_of_pattern {v p : String} (hp : p ∈ sqlPatterns)
    (hc : strContains (goToLower v) p = true) :
    containsSQLInjectionPattern v = true := by
  have hne : v ≠ "" := by
    intro he
    subst he
    revert hc
    fin_cases hp <;> decide
  rw [containsSQLInjectionPattern, if_neg hne]
  exact List.any_eq_true.mpr ⟨p, hp, hc⟩

/-- C10: the bare English fragments are all on the blacklist, so any
query-parameter or path-parameter value containing one of them
case-insensitively trips containsSQLInjectionPattern, and any request with
such a value is answered 400 Invalid input detected without reaching the
route handler. -/
theorem sql_filter_rejects_bare_fragments :
    (∀ p ∈ ["select ", "from ", "where ", "set ", "update ", "--"], p ∈ sqlPatterns) ∧
    (∀ (v p : String), p ∈ ["select ", "from ", "where ", "set ", "update ", "--"] →
      strContains (goToLower v) p = true → containsSQLInjectionPattern v = true) ∧
    (∀ (queryParams : List (String × List String)) (pathParams : List (String × String)),
      ((∃ kv ∈ queryParams, ∃ v ∈ kv.2, containsSQLInjectionPattern v = true) ∨
       (∃ kv ∈ pathParams, containsSQLInjectionPattern kv.2 = true)) →
      sqlInjectionProtectionMiddleware queryParams pathParams =
        .blocked 400 "Invalid input detected") := by
  refine ⟨by decide, ?_, ?_⟩
  · intro v p hp hc
    refine strContains_of_pattern ?_ hc
    fin_cases hp <;> decide
  · intro qs ps h
    rcases h with h | h
    · rw [sqlInjectionProtectionMiddleware,
        if_pos (List.any_eq_true.mpr
          (by obtain ⟨kv, hkv, v, hv, hcv⟩ := h
              exact ⟨kv, hkv, List.any_eq_true.mpr ⟨v, hv, hcv⟩⟩))]
    · rw [sqlInjectionProtectionMiddleware]
      by_cases hq : qs.any (fun kv => kv.2.any (fun v => containsSQLInjectionPattern v))
      · rw [if_pos hq]
      · rw [if_neg hq,
          if_pos (List.any_eq_true.mpr (by obtain ⟨kv, hkv, hcv⟩ := h; exact ⟨kv, hkv, hcv⟩))]

/-- Witness for C10: a benign-looking query value containing the fragment
from with a trailing space is rejected. -/
theorem sql_filter_rejects_bare_fragments_witness :
    strContains (goToLower "greetings from Brazil") "from " = true ∧
    containsSQLInjectionPattern "greetings from Brazil" = true ∧
    sqlInjectionProtectionMiddleware
      [("q", ["greetings from Brazil"])] [("id", "42")] =
      .blocked 400 "Invalid input detected" :=
  ⟨by decide,
   (sql_filter_rejects_bare_fragments).2.1 "greetings from Brazil" "from "
     (by decide) (by decide),
   (sql_filter_rejects_bare_fragments).2.2 [("q", ["greetings from Brazil"])]
     [("id", "42")]
     (Or.inl ⟨("q", ["greetings from Brazil"]), by decide,
       "greetings from Brazil", by decide, by decide⟩)⟩

/-! ### The chat / LLM proxy stack (services package, chat handlers in main.go)

The database (ContextBuilder.BuildContext) and the upstream Ollama HTTP
server are oracles passed in as data: buildContext maps the user message to
the built context or a query error, and the HTTP layer outcome is an
explicit value. -/

structure ChatRequest where
  message : String
  context : String
deriving DecidableEq

structure ChatResponse where
  response : String
  sources : List String
  model : String
  timestamp : String
deriving DecidableEq

structure OllamaMessage where
  role : String
  content : String
deriving DecidableEq

/-- OllamaResponse of the chat-API revision: message plus done flag. -/
structure OllamaResponse where
  message : OllamaMessage
  done : Bool
deriving DecidableEq

/-- What reading and unmarshalling the response body produced: io.ReadAll
may fail (raw keeps the partial bytes Go returns alongside the error), and
a read body may fail to unmarshal. -/
inductive BodyRead where
  | readError (raw : String) (msg : String)
  | readOk (raw : String) (parsed : Except String OllamaResponse)

/-- Outcome of the outbound POST to the api chat endpoint. -/
inductive OllamaHttpResult where
  | netError (msg : String)
  | response (status : Nat) (body : BodyRead)

/-- The raw response-body text (used in the non-200 error message). -/
def rawOf : BodyRead → String
  | .readError raw _ => raw
  | .readOk raw _ => raw

/-- callOllama of the chat-API revision (part 009): error strings exactly as
produced by the source, successful content trimmed twice. -/
def callOllama (http : OllamaHttpResult) : Except String String :=
  match http with
  | .netError msg => .error ("HTTP request failed: " ++ msg)
  | .response status body =>
    if status ≠ 200 then
      .error ("ollama API error (status " ++ toString status ++ "): " ++ rawOf body)
    else
      match body with
      | .readError _ msg => .error ("failed to read response body: " ++ msg)
      | .readOk _ (.error msg) => .error ("failed to decode response: " ++ msg)
      | .readOk _ (.ok r) => .ok (goTrimSpace (goTrimSpace r.message.content))

/-- ProcessChat of the revision in part 009: a context-builder failure is
returned immediately, without calling the LLM.  The Bool records whether
callOllama ran. -/
def processChat_v009 (model now : String)
    (buildContext : String → Except String String)
    (callOllamaAt : String → Except String String)
    (request : ChatRequest) : Except String ChatResponse × Bool :=
  match buildContext request.message with
  | .error e => (.error ("failed to build context: " ++ e), false)
  | .ok context =>
    match callOllamaAt context with
    | .error e => (.error ("LLM request failed: " ++ e), true)
    | .ok response =>
      (.ok { response := response, sources := ["PostgreSQL Database"],
             model := model, timestamp := now }, true)

/-- getFallbackContext of the revision in part 018, verbatim. -/
def getFallbackContext : String :=
  "You are Bruno\x27s AI assistant. Answer questions about Bruno Lucena based on this information:

ABOUT BRUNO:
Senior Cloud Native Infrastructure Engineer with extensive experience in designing, implementing, and maintaining scalable, resilient cloud-native infrastructure. Passionate about automation, observability, and modern DevOps practices.

KEY SKILLS:
- Cloud Platforms: AWS, GCP, Azure
- Container Orchestration: Kubernetes, Docker
- Infrastructure as Code: Terraform, Pulumi
- Programming: Go, Python, TypeScript
- Observability: Prometheus, Grafana, Loki
- DevOps: CI/CD, GitOps, SRE practices

CURRENT ROLE:
SRE/DevOps at Notifi (2023-present) - Architecting cloud-native infrastructure, implementing observability solutions, and building serverless applications.

CONTACT:
- Email: bruno@lucena.cloud
- Location: Brazil
- LinkedIn: https://www.linkedin.com/in/bvlucena
- GitHub: https://github.com/brunovlucena

INSTRUCTIONS:
- Answer as Bruno\x27s AI assistant in first person about Bruno
- Be conversational, helpful, and professional
- Use the provided data to give accurate answers
- Keep responses concise but informative

USER QUESTION: "

/-- ProcessChat of the revision in part 018: a context-builder failure is
swallowed, the hard-coded fallback context is substituted, and the LLM is
still called. -/
def processChat_v018 (model now : String)
    (buildContext : String → Except String String)
    (callOllamaAt : String → Except String String)
    (request : ChatRequest) : Except String ChatResponse × Bool :=
  let context :=
    match buildContext request.message with
    | .error _ => getFallbackContext
    | .ok c => c
  match callOllamaAt context with
  | .error e => (.error ("LLM request failed: " ++ e), true)
  | .ok response =>
    (.ok { response := response, sources := ["PostgreSQL Database"],
           model := model, timestamp := now }, true)

/-- C3: when BuildContext fails, the part 018 revision of ProcessChat
substitutes the hard-coded fallback context and still calls the LLM, the
part 009 revision returns the error without calling the LLM, and the two
revisions disagree on a concrete database-failure run. -/
theorem processChat_revisions_inequivalent_on_db_failure :
    (∀ (model now e msg ctxField : String) (ollama : String → Except String String),
      processChat_v018 model now (fun _ => .error e) ollama ⟨msg, ctxField⟩ =
        (match ollama getFallbackContext with
         | .error e2 => (.error ("LLM request failed: " ++ e2), true)
         | .ok r => (.ok { response := r, sources := ["PostgreSQL Database"],
                           model := model, timestamp := now }, true))) ∧
    (∀ (model now e msg ctxField : String) (ollama : String → Except String String),
      processChat_v009 model now (fun _ => .error e) ollama ⟨msg, ctxField⟩ =
        (.error ("failed to build context: " ++ e), false)) ∧
    processChat_v018 "gemma2:2b" "2025-01-01T00:00:00Z"
        (fun _ => .error "db down") (fun _ => .ok "answer") ⟨"hi", ""⟩ ≠
      processChat_v009 "gemma2:2b" "2025-01-01T00:00:00Z"
        (fun _ => .error "db down") (fun _ => .ok "answer") ⟨"hi", ""⟩ := by
  refine ⟨fun _ _ _ _ _ _ => rfl, fun _ _ _ _ _ _ => rfl, ?_⟩
  simp [processChat_v009, processChat_v018]

/-- Witness for C3 at a concrete failing database and answering LLM. -/
theorem processChat_revisions_inequivalent_on_db_failure_witness :
    processChat_v018 "gemma2:2b" "2025-01-01T00:00:00Z"
        (fun _ => .error "db down") (fun _ => .ok "answer") ⟨"hi", ""⟩ =
      (.ok { response := "answer", sources := ["PostgreSQL Database"],
             model := "gemma2:2b", timestamp := "2025-01-01T00:00:00Z" }, true) ∧
    processChat_v009 "gemma2:2b" "2025-01-01T00:00:00Z"
        (fun _ => .error "db down") (fun _ => .ok "answer") ⟨"hi", ""⟩ =
      (.error "failed to build context: db down", false) :=
  ⟨(processChat_revisions_inequivalent_on_db_failure).1 "gemma2:2b"
      "2025-01-01T00:00:00Z" "db down" "hi" "" (fun _ => .ok "answer"),
   (processChat_revisions_inequivalent_on_db_failure).2.1 "gemma2:2b"
      "2025-01-01T00:00:00Z" "db down" "hi" "" (fun _ => .ok "answer")⟩

/-! ### C2: the chat health endpoint (HealthCheck, handleChatHealth) -/

structure OllamaModelTag where
  name : String
  size : Int
deriving DecidableEq

/-- Outcome of reading and parsing the body of the model-list endpoint. -/
inductive TagsBody where
  | readError (msg : String)
  | parseError (msg : String)
  | models (l : List OllamaModelTag)
deriving DecidableEq

/-- Outcome of the GET to the api tags endpoint. -/
inductive TagsFetch where
  | netError (msg : String)
  | response (status : Nat) (body : TagsBody)
deriving DecidableEq

/-- The model-presence loop of HealthCheck (its result is only logged). -/
def modelFound (model : String) (l : List OllamaModelTag) : Bool :=
  l.any (fun m => m.name = model)

/-- HealthCheck (part 009 revision): fails only on a transport error or a
non-200 status; with a 200 answer it returns nil even when the body cannot
be read or parsed, and even when the configured model is absent from the
parsed list — the missing model is only logged. -/
def healthCheck (model : String) (fetch : TagsFetch) : Option String :=
  match fetch with
  | .netError msg => some ("ollama health check failed: " ++ msg)
  | .response status body =>
    if status ≠ 200 then
      some ("ollama health check failed with status: " ++ toString status)
    else
      match body with
      | .readError _ => none
      | .parseError _ => none
      | .models l =>
        let _found := modelFound model l
        none

structure ChatHealthResponse where
  status : Nat
  statusText : String
  errMsg : Option String
deriving DecidableEq

/-- handleChatHealth: 200 healthy when HealthCheck returns nil, 503
unhealthy with the error text otherwise. -/
def handleChatHealth (model : String) (fetch : TagsFetch) : ChatHealthResponse :=
  match healthCheck model fetch with
  | some e => { status := 503, statusText := "unhealthy", errMsg := some e }
  | none => { status := 200, statusText := "healthy", errMsg := none }

/-- C2 counterexample: the upstream tags endpoint answers 200 with a model
list that does not contain the configured model, yet the handler still
reports healthy, refuting the only-if direction of the claim. -/
theorem chatHealth_healthy_despite_missing_model :
    handleChatHealth "gemma3n:e4b" (.response 200 (.models [])) =
      { status := 200, statusText := "healthy", errMsg := none } ∧
    modelFound "gemma3n:e4b" [] = false := by
  exact ⟨rfl, rfl⟩

/-- C2 amended: the handler reports healthy (status 200) exactly when the
upstream tags request came back with HTTP 200, regardless of whether the
configured model is in the list (its absence is only logged); otherwise it
reports the degraded unhealthy status 503, and every outcome is one of
these two responses (no crash). -/
theorem chatHealth_healthy_iff_upstream_ok (model : String) (fetch : TagsFetch) :
    ((handleChatHealth model fetch).statusText = "healthy" ↔
      ∃ body, fetch = .response 200 body) ∧
    ((handleChatHealth model fetch).status = 200 ∨
      (handleChatHealth model fetch).status = 503) := by
  cases fetch with
  | netError msg =>
    constructor
    · simp [handleChatHealth, healthCheck]
    · simp [handleChatHealth, healthCheck]
  | response st body =>
    by_cases h : st = 200
    · subst h
      cases body <;> simp [handleChatHealth, healthCheck]
    · cases body <;> simp [handleChatHealth, healthCheck, h]

/-- Witness for the amended C2 at two concrete upstream outcomes. -/
theorem chatHealth_healthy_iff_upstream_ok_witness :
    (((handleChatHealth "gemma3n:e4b" (.netError "connection refused")).statusText =
        "healthy" ↔
      ∃ body, TagsFetch.netError "connection refused" = .response 200 body) ∧
     ((handleChatHealth "gemma3n:e4b" (.netError "connection refused")).status = 200 ∨
      (handleChatHealth "gemma3n:e4b" (.netError "connection refused")).status = 503)) :=
  chatHealth_healthy_iff_upstream_ok "gemma3n:e4b" (.netError "connection refused")

/-! ### C6, C7: the chat endpoint handler (handleChat in main.go) -/

/-- The JSON answer of handleChat: status, the fixed error field, the
details field echoing the internal error, and the success body. -/
structure ChatHttpResponse where
  status : Nat
  errMsg : Option String
  details : Option String
  body : Option ChatResponse
deriving DecidableEq

/-- handleChat: a JSON-binding failure (malformed body or missing required
message field) is answered 400 with the binding error echoed in details; a
present but whitespace-only message is answered 400; a ProcessChat error is
answered 500 with the error echoed in details; success is 200. -/
def handleChat (bindResult : Except String ChatRequest)
    (processChat : ChatRequest → Except String ChatResponse) : ChatHttpResponse :=
  match bindResult with
  | .error e =>
    { status := 400, errMsg := some "Invalid request format",
      details := some e, body := none }
  | .ok request =>
    if goTrimSpace request.message = "" then
      { status := 400, errMsg := some "Message cannot be empty",
        details := none, body := none }
    else
      match processChat request with
      | .error e =>
        { status := 500, errMsg := some "Failed to process chat request",
          details := some e, body := none }
      | .ok r =>
        { status := 200, errMsg := none, details := none, body := some r }

/-- C6: whenever the outbound LLM call fails — transport error, non-200
upstream status, or a body that does not unmarshal — ProcessChat surfaces
an error and the chat handler answers 500 with a details field echoing that
error message. -/
theorem chat_llm_failure_maps_to_500
    (model now msg reqCtx ctx : String)
    (buildContext : String → Except String String)
    (http : OllamaHttpResult)
    (hmsg : goTrimSpace msg ≠ "")
    (hctx : buildContext msg = .ok ctx)
    (hfail : (∃ m, http = .netError m) ∨
             (∃ st body, http = .response st body ∧ st ≠ 200) ∨
             (∃ raw pe, http = .response 200 (.readOk raw (.error pe)))) :
    ∃ e, callOllama http = .error e ∧
      handleChat (.ok ⟨msg, reqCtx⟩)
        (fun r => (processChat_v009 model now buildContext
          (fun _ => callOllama http) r).1) =
        { status := 500, errMsg := some "Failed to process chat request",
          details := some ("LLM request failed: " ++ e), body := none } := by
  obtain ⟨e, he⟩ : ∃ e, callOllama http = .error e := by
    rcases hfail with ⟨m, rfl⟩ | ⟨st, body, rfl, hst⟩ | ⟨raw, pe, rfl⟩
    · exact ⟨_, rfl⟩
    · exact ⟨"ollama API error (status " ++ toString st ++ "): " ++ rawOf body,
        by simp [callOllama, hst]⟩
    · exact ⟨"failed to decode response: " ++ pe, by simp [callOllama]⟩
  refine ⟨e, he, ?_⟩
  simp only [handleChat, if_neg hmsg, processChat_v009, hctx, he]

/-- Witness for C6 at a concrete transport failure. -/
theorem chat_llm_failure_maps_to_500_witness :
    goTrimSpace "hi" ≠ "" ∧
    (∃ e, callOllama (.netError "connection refused") = .error e ∧
      handleChat (.ok ⟨"hi", ""⟩)
        (fun r => (processChat_v009 "gemma3n:e4b" "2025-01-01T00:00:00Z"
          (fun _ => .ok "CTX") (fun _ => callOllama (.netError "connection refused")) r).1) =
        { status := 500, errMsg := some "Failed to process chat request",
          details := some ("LLM request failed: " ++ e), body := none }) :=
  ⟨by decide,
   chat_llm_failure_maps_to_500 "gemma3n:e4b" "2025-01-01T00:00:00Z" "hi" "" "CTX"
     (fun _ => .ok "CTX") (.netError "connection refused") (by decide) rfl
     (Or.inl ⟨"connection refused", rfl⟩)⟩

/-- C7: a request whose body does not bind to the ChatRequest shape
(malformed JSON or missing message field), or whose message is only
whitespace, is answered 400 with an error description — never 500. -/
theorem chat_malformed_request_400 (bindResult : Except String ChatRequest)
    (processChat : ChatRequest → Except String ChatResponse)
    (h : (∃ e, bindResult = .error e) ∨
         (∃ req, bindResult = .ok req ∧ goTrimSpace req.message = "")) :
    (handleChat bindResult processChat).status = 400 ∧
    (handleChat bindResult processChat).errMsg.isSome = true ∧
    (handleChat bindResult processChat).status ≠ 500 := by
  rcases h with ⟨e, rfl⟩ | ⟨req, rfl, hreq⟩
  · simp [handleChat]
  · simp [handleChat, hreq]

/-- Witness for C7 at a concrete malformed body and a concrete
whitespace-only message. -/
theorem chat_malformed_request_400_witness :
    ((handleChat (.error "invalid character x looking for beginning of value")
        (fun _ => .ok ⟨"", [], "", ""⟩)).status = 400 ∧
     (handleChat (.error "invalid character x looking for beginning of value")
        (fun _ => .ok ⟨"", [], "", ""⟩)).errMsg.isSome = true ∧
     (handleChat (.error "invalid character x looking for beginning of value")
        (fun _ => .ok ⟨"", [], "", ""⟩)).status ≠ 500) ∧
    goTrimSpace "  " = "" :=
  ⟨chat_malformed_request_400 (.error "invalid character x looking for beginning of value")
     (fun _ => .ok ⟨"", [], "", ""⟩)
     (Or.inl ⟨"invalid character x looking for beginning of value", rfl⟩),
   by decide⟩

/-! ### Input validation and sanitization (security.go) -/

/-- The control-character class removed by the sanitization regex:
x00 to x08, x0B, x0C, x0E to x1F, x7F. -/
def isFilteredControl (c : Char) : Bool :=
  c.toNat ≤ 0x08 || c.toNat = 0x0B || c.toNat = 0x0C ||
  (0x0E ≤ c.toNat && c.toNat ≤ 0x1F) || c.toNat = 0x7F

/-- html.EscapeString escapes exactly these five characters. -/
def htmlEscapeChar (c : Char) : String :=
  if c = '&' then "&amp;"
  else if c.toNat = 39 then "&#39;"
  else if c = '<' then "&lt;"
  else if c = '>' then "&gt;"
  else if c.toNat = 34 then "&#34;"
  else String.singleton c

def htmlEscapeString (s : String) : String :=
  String.join (s.data.map htmlEscapeChar)

/-- SanitizeString: drop the control characters, HTML-escape, trim
surrounding white space; the empty string is returned unchanged. -/
def SanitizeString (input : String) : String :=
  if input = "" then ""
  else goTrimSpace (htmlEscapeString ⟨input.data.filter (fun c => !isFilteredControl c)⟩)

structure ValidationError where
  field : String
  message : String
deriving DecidableEq

def dangerousTitlePatterns : List String :=
  ["<script", "javascript:", "onload=", "onerror=", "onclick=",
   "<iframe", "<object", "<embed", "data:text/html"]

/-- ValidateAndSanitizeTitle: nonempty, free of the dangerous patterns
(checked on the lower-cased raw input), and at most 255 bytes after
sanitization. -/
def ValidateAndSanitizeTitle (title : String) : Except ValidationError String :=
  if title = "" then .error ⟨"title", "Title is required"⟩
  else if dangerousTitlePatterns.any (fun p => strContains (goToLower title) p) then
    .error ⟨"title", "Title contains potentially dangerous content"⟩
  else if 255 < goLen (SanitizeString title) then
    .error ⟨"title", "Title must be 255 characters or less"⟩
  else .ok (SanitizeString title)

/-- ValidateAndSanitizeDescription: nonempty and at most 5000 bytes after
sanitization. -/
def ValidateAndSanitizeDescription (description : String) : Except ValidationError String :=
  if description = "" then .error ⟨"description", "Description is required"⟩
  else if 5000 < goLen (SanitizeString description) then
    .error ⟨"description", "Description must be 5000 characters or less"⟩
  else .ok (SanitizeString description)

def dangerousURLPatterns : List String :=
  ["javascript:", "data:text/html", "vbscript:", "file://"]

/-- ValidateAndSanitizeURL: the empty URL is accepted as-is (optional);
otherwise sanitize, bound the length, require an http or https scheme and
reject the dangerous URL patterns. -/
def ValidateAndSanitizeURL (urlStr fieldName : String) : Except ValidationError String :=
  if urlStr = "" then .ok ""
  else if 2048 < goLen (SanitizeString urlStr) then
    .error ⟨fieldName, "URL must be 2048 characters or less"⟩
  else if !(hasPrefixGo (SanitizeString urlStr) "http://" ||
            hasPrefixGo (SanitizeString urlStr) "https://") then
    .error ⟨fieldName, "URL must start with http:// or https://"⟩
  else if dangerousURLPatterns.any
      (fun p => strContains (goToLower (SanitizeString urlStr)) p) then
    .error ⟨fieldName, "URL contains potentially dangerous content"⟩
  else .ok (SanitizeString urlStr)

/-- parseInt of security.go: trim white space, insist on decimal digits
only, then parse; strconv.Atoi fails on the empty string.  Digits-only
input can never be negative, so the value is a Nat. -/
def parseIntGo (s : String) : Except String Nat :=
  if (goTrimSpace s).data.all (fun c => '0' ≤ c && c ≤ '9') then
    if goTrimSpace s = "" then .error "empty input"
    else .ok ((goTrimSpace s).data.foldl (fun acc c => acc * 10 + (c.toNat - 48)) 0)
  else .error "non-numeric character found"

/-- ValidateInteger: required, parseable, and inside the closed range
lo..hi (the source takes Go ints; every value parseInt accepts is a
natural number, and the handlers only pass the bounds 1 and 999999). -/
def ValidateInteger (value fieldName : String) (lo hi : Nat) :
    Except ValidationError Nat :=
  if value = "" then .error ⟨fieldName, fieldName ++ " is required"⟩
  else
    match parseIntGo value with
    | .error _ => .error ⟨fieldName, fieldName ++ " must be a valid integer"⟩
    | .ok n =>
      if n < lo || hi < n then
        .error ⟨fieldName, fieldName ++ " must be between " ++ toString lo ++
          " and " ++ toString hi⟩
      else .ok n

/-! ### Project handlers (part 001) and the admin listing (part 020)

The projects table is a list of rows plus the next serial id; nullable
columns are Option String just like the sql.NullString scans in the
source. -/

/-- The JSON payload and response shape bound by the project handlers.
Modelled from the spec: the Go struct declaration itself is not among the
provided sources (only its uses are); the fields follow the data-model
section of the spec and the field accesses in the handlers. -/
structure ProjectPayload where
  id : Nat
  title : String
  description : String
  shortDescription : String
  type : String
  githubURL : String
  liveURL : String
  technologies : List String
  active : Bool
deriving DecidableEq

/-- One row of the projects table (the columns the handlers touch). -/
structure ProjectRow where
  id : Nat
  title : String
  description : String
  type : String
  githubURL : Option String
  liveURL : Option String
  videoURL : Option String
  modules : Nat
  technologies : List String
  active : Bool
  order : Nat
deriving DecidableEq

/-- The projects table plus the next value of the id serial. -/
structure DBState where
  rows : List ProjectRow
  nextId : Nat
deriving DecidableEq

/-- Response of a project handler: status, error body, project body. -/
structure HandlerResult where
  status : Nat
  errMsg : Option String
  body : Option ProjectPayload
deriving DecidableEq

structure SanitizedProjectFields where
  title : String
  description : String
  type : String
  githubURL : String
  liveURL : String
deriving DecidableEq

/-- The validation and sanitization block that createProject and
updateProject both contain verbatim: title, description, the type length
check followed by type sanitization, then each URL when present. -/
def validateProjectFields (project : ProjectPayload) :
    Except String SanitizedProjectFields :=
  match ValidateAndSanitizeTitle project.title with
  | .error e => .error e.message
  | .ok title =>
    match ValidateAndSanitizeDescription project.description with
    | .error e => .error e.message
    | .ok description =>
      if project.type = "" || 100 < goLen project.type then .error "Invalid type length"
      else
        match (if project.githubURL = "" then .ok project.githubURL
               else ValidateAndSanitizeURL project.githubURL "github_url") with
        | .error e => .error e.message
        | .ok githubURL =>
          match (if project.liveURL = "" then .ok project.liveURL
                 else ValidateAndSanitizeURL project.liveURL "live_url") with
          | .error e => .error e.message
          | .ok liveURL =>
            .ok ⟨title, description, SanitizeString project.type, githubURL, liveURL⟩

/-- createProject: validate and sanitize the payload, INSERT a row (order
0, the omitted video and modules columns at their defaults) RETURNING the
serial id, and answer 201 with the sanitized project carrying the new id. -/
def createProject (project : ProjectPayload) (db : DBState) :
    HandlerResult × DBState :=
  match validateProjectFields project with
  | .error msg => ({ status := 400, errMsg := some msg, body := none }, db)
  | .ok f =>
    let row : ProjectRow :=
      { id := db.nextId, title := f.title, description := f.description,
        type := f.type, githubURL := some f.githubURL, liveURL := some f.liveURL,
        videoURL := none, modules := 0, technologies := project.technologies,
        active := project.active, order := 0 }
    let respBody : ProjectPayload :=
      { project with
        id := db.nextId, title := f.title,
        description := f.description, type := f.type,
        githubURL := f.githubURL, liveURL := f.liveURL }
    ({ status := 201, errMsg := none, body := some respBody },
     { rows := db.rows ++ [row], nextId := db.nextId + 1 })

/-- The row-to-payload conversion of the SELECT handlers in part 001: the
description column doubles as short description and NULL URLs become the
empty string. -/
def rowToProject (r : ProjectRow) : ProjectPayload :=
  { id := r.id, title := r.title, description := r.description,
    shortDescription := r.description, type := r.type,
    githubURL := r.githubURL.getD "", liveURL := r.liveURL.getD "",
    technologies := r.technologies, active := r.active }

/-- getProject: validate the id path parameter (range 1 to 999999), SELECT
the row with that id and active true, 404 when there is none. -/
def getProject (idStr : String) (db : DBState) : HandlerResult :=
  match ValidateInteger idStr "id" 1 999999 with
  | .error e => { status := 400, errMsg := some e.message, body := none }
  | .ok projectID =>
    match db.rows.find? (fun r => r.id = projectID && r.active) with
    | none => { status := 404, errMsg := some "Project not found", body := none }
    | some r => { status := 200, errMsg := none, body := some (rowToProject r) }

/-- The column list of the UPDATE statement in updateProject: title,
description, type, the two URLs, technologies and active. -/
def applyProjectUpdate (f : SanitizedProjectFields) (project : ProjectPayload)
    (r : ProjectRow) : ProjectRow :=
  { r with
    title := f.title, description := f.description, type := f.type,
    githubURL := some f.githubURL, liveURL := some f.liveURL,
    technologies := project.technologies, active := project.active }

/-- updateProject: validate the id and the payload, UPDATE title,
description, type, the URLs, technologies and active on the matching
row, and answer 404 when no row was affected. -/
def updateProject (idStr : String) (project : ProjectPayload) (db : DBState) :
    HandlerResult × DBState :=
  match ValidateInteger idStr "id" 1 999999 with
  | .error e => ({ status := 400, errMsg := some e.message, body := none }, db)
  | .ok projectID =>
    match validateProjectFields project with
    | .error msg => ({ status := 400, errMsg := some msg, body := none }, db)
    | .ok f =>
      if db.rows.all (fun r => !(r.id = projectID)) then
        ({ status := 404, errMsg := some "Project not found", body := none }, db)
      else
        ({ status := 200, errMsg := none, body := none },
         { rows := db.rows.map (fun r =>
             if r.id = projectID then applyProjectUpdate f project r else r),
           nextId := db.nextId })

/-- The ORDER BY of both project listings: order ascending, id ascending. -/
def projectOrder (a b : ProjectRow) : Prop :=
  a.order < b.order ∨ (a.order = b.order ∧ a.id ≤ b.id)

instance : DecidableRel projectOrder := fun a b => by
  unfold projectOrder
  infer_instance

/-- getProjects (part 001): SELECT the rows with active true, ordered. -/
def getProjects (db : DBState) : List ProjectPayload :=
  (List.insertionSort projectOrder (db.rows.filter (fun r => r.active))).map rowToProject

/-- The part 020 Project shape: a single url column filled from live url
when the column is non-NULL, else from the github url. -/
structure AdminProject where
  id : Nat
  title : String
  description : String
  shortDescription : String
  type : String
  modules : Nat
  url : String
  videoURL : String
  technologies : List String
  active : Bool
deriving DecidableEq

def rowToAdminProject (r : ProjectRow) : AdminProject :=
  { id := r.id, title := r.title, description := r.description,
    shortDescription := r.description, type := r.type, modules := r.modules,
    url := match r.liveURL with
           | some v => v
           | none => r.githubURL.getD "",
    videoURL := r.videoURL.getD "", technologies := r.technologies,
    active := r.active }

/-- The admin get-all response: all rows (active or not) plus counts. -/
structure AdminListResponse where
  projects : List AdminProject
  total : Nat
  active : Nat
  inactive : Nat
deriving DecidableEq

def countActiveProjects (projects : List AdminProject) : Nat :=
  projects.countP (fun p => p.active)

def countInactiveProjects (projects : List AdminProject) : Nat :=
  projects.countP (fun p => !p.active)

/-- getAllProjects (part 020): SELECT every row, ordered, with counts. -/
def getAllProjects (db : DBState) : AdminListResponse :=
  { projects := (List.insertionSort projectOrder db.rows).map rowToAdminProject,
    total := ((List.insertionSort projectOrder db.rows).map rowToAdminProject).length,
    active := countActiveProjects
      ((List.insertionSort projectOrder db.rows).map rowToAdminProject),
    inactive := countInactiveProjects
      ((List.insertionSort projectOrder db.rows).map rowToAdminProject) }

theorem validateTitle_ok {title t : String}
    (h : ValidateAndSanitizeTitle title = .ok t) : t = SanitizeString title := by
  rw [ValidateAndSanitizeTitle] at h
  split at h
  · cases h
  · split at h
    · cases h
    · split at h
      · cases h
      · injection h with h
        exact h.symm

theorem validateDescription_ok {d t : String}
    (h : ValidateAndSanitizeDescription d = .ok t) : t = SanitizeString d := by
  rw [ValidateAndSanitizeDescription] at h
  split at h
  · cases h
  · split at h
    · cases h
    · injection h with h
      exact h.symm

theorem validateProjectFields_ok {project : ProjectPayload}
    {f : SanitizedProjectFields} (h : validateProjectFields project = .ok f) :
    f.title = SanitizeString project.title ∧
    f.description = SanitizeString project.description := by
  rw [validateProjectFields] at h
  split at h
  · cases h
  next title hT =>
    split at h
    · cases h
    next description hD =>
      split at h
      · cases h
      · split at h
        · cases h
        next githubURL hG =>
          split at h
          · cases h
          next liveURL hL =>
            injection h with h
            subst h
            exact ⟨validateTitle_ok hT, validateDescription_ok hD⟩

theorem find?_append_of_none {α : Type} {p : α → Bool} {l₁ l₂ : List α}
    (h : l₁.find? p = none) : (l₁ ++ l₂).find? p = l₂.find? p := by
  induction l₁ with
  | nil => rfl
  | cons a l ih =>
    cases hpa : p a with
    | true =>
      rw [List.find?_cons_of_pos _ hpa] at h
      cases h
    | false =>
      rw [List.find?_cons_of_neg _ (by simp [hpa])] at h
      rw [List.cons_append, List.find?_cons_of_neg _ (by simp [hpa])]
      exact ih h

/-- C4 counterexample: two concrete accepted payloads refute the exact
round trip.  A title containing an ampersand comes back HTML-escaped, and
a payload posted with active false is accepted with 201 but the subsequent
GET answers 404 (the SELECT filters active = true), not 200. -/
theorem create_get_roundtrip_fails :
    (createProject ⟨0, "A&B", "A description", "", "demo", "", "", ["Go"], true⟩
        ⟨[], 1⟩).1.status = 201 ∧
    (getProject "1"
        (createProject ⟨0, "A&B", "A description", "", "demo", "", "", ["Go"], true⟩
          ⟨[], 1⟩).2).status = 200 ∧
    (getProject "1"
        (createProject ⟨0, "A&B", "A description", "", "demo", "", "", ["Go"], true⟩
          ⟨[], 1⟩).2).body.map (fun p => p.title) = some "A&amp;B" ∧
    "A&amp;B" ≠ "A&B" ∧
    (createProject ⟨0, "Hidden", "A description", "", "demo", "", "", ["Go"], false⟩
        ⟨[], 1⟩).1.status = 201 ∧
    (getProject "1"
        (createProject ⟨0, "Hidden", "A description", "", "demo", "", "", ["Go"], false⟩
          ⟨[], 1⟩).2).status = 404 := by
  exact ⟨rfl, rfl, rfl, by decide, rfl, rfl⟩

/-- C4 corrected: a payload accepted by createProject with 201 and active
true is retrievable under the returned id (provided the id string denotes
that id and the id is fresh in the table): the GET answers 200, its title
and description are the sanitized POST values — hence equal to the values
sent exactly when sanitization leaves them unchanged — and technologies
round-trip unchanged. -/
theorem create_then_get_returns_sanitized_payload
    (project : ProjectPayload) (db : DBState) (idStr : String)
    (hcreated : (createProject project db).1.status = 201)
    (hactive : project.active = true)
    (hid : ValidateInteger idStr "id" 1 999999 = .ok db.nextId)
    (hfresh : ∀ r ∈ db.rows, r.id ≠ db.nextId) :
    (getProject idStr (createProject project db).2).status = 200 ∧
    (getProject idStr (createProject project db).2).body.map
        (fun p => (p.title, p.description, p.technologies)) =
      some (SanitizeString project.title, SanitizeString project.description,
        project.technologies) := by
  cases hv : validateProjectFields project with
  | error msg => simp [createProject, hv] at hcreated
  | ok f =>
    obtain ⟨hft, hfd⟩ := validateProjectFields_ok hv
    have hrows : (createProject project db).2.rows =
        db.rows ++
          [{ id := db.nextId, title := f.title, description := f.description,
             type := f.type, githubURL := some f.githubURL,
             liveURL := some f.liveURL, videoURL := none, modules := 0,
             technologies := project.technologies, active := project.active,
             order := 0 }] := by
      simp [createProject, hv]
    have hfront : db.rows.find? (fun r => r.id = db.nextId && r.active) = none :=
      List.find?_eq_none.mpr (fun r hr => by simp [hfresh r hr])
    have hfind : (createProject project db).2.rows.find?
        (fun r => r.id = db.nextId && r.active) =
        some { id := db.nextId, title := f.title, description := f.description,
               type := f.type, githubURL := some f.githubURL,
               liveURL := some f.liveURL, videoURL := none, modules := 0,
               technologies := project.technologies, active := project.active,
               order := 0 } := by
      rw [hrows, find?_append_of_none hfront]
      exact List.find?_cons_of_pos _ (by simp [hactive])
    constructor
    · simp [getProject, hid, hfind]
    · simp [getProject, hid, hfind, rowToProject, hft, hfd]

/-- Witness for the corrected C4 at a concrete payload already fixed under
sanitization. -/
theorem create_then_get_returns_sanitized_payload_witness :
    ((createProject ⟨0, "Hello", "World", "", "demo", "", "", ["Go"], true⟩
        ⟨[], 1⟩).1.status = 201 ∧
     ValidateInteger "1" "id" 1 999999 = .ok (1 : Nat) ∧
     (∀ r ∈ ([] : List ProjectRow), r.id ≠ 1)) ∧
    ((getProject "1"
        (createProject ⟨0, "Hello", "World", "", "demo", "", "", ["Go"], true⟩
          ⟨[], 1⟩).2).status = 200 ∧
     (getProject "1"
        (createProject ⟨0, "Hello", "World", "", "demo", "", "", ["Go"], true⟩
          ⟨[], 1⟩).2).body.map
        (fun p => (p.title, p.description, p.technologies)) =
      some (SanitizeString "Hello", SanitizeString "World", ["Go"])) :=
  ⟨⟨rfl, rfl, by simp⟩,
   create_then_get_returns_sanitized_payload
     ⟨0, "Hello", "World", "", "demo", "", "", ["Go"], true⟩ ⟨[], 1⟩ "1"
     rfl rfl rfl (by simp)⟩

/-- C5: when updateProject succeeds (status 200) with a payload whose
active flag is false, no project with the updated id appears in the public
listing (which keeps only active rows), while a row with that id — now
inactive — still appears in the admin get-all listing. -/
theorem deactivate_hides_public_keeps_admin
    (idStr : String) (project : ProjectPayload) (db : DBState)
    (hupd : (updateProject idStr project db).1.status = 200)
    (hinactive : project.active = false) :
    ∃ pid, ValidateInteger idStr "id" 1 999999 = .ok pid ∧
      (∀ p ∈ getProjects (updateProject idStr project db).2, p.id ≠ pid) ∧
      (∃ q ∈ (getAllProjects (updateProject idStr project db).2).projects,
        q.id = pid ∧ q.active = false) := by
  cases hvi : ValidateInteger idStr "id" 1 999999 with
  | error e => simp [updateProject, hvi] at hupd
  | ok pid =>
    cases hvf : validateProjectFields project with
    | error msg => simp [updateProject, hvi, hvf] at hupd
    | ok f =>
      by_cases haff : db.rows.all (fun r => !(r.id = pid)) = true
      · simp [updateProject, hvi, hvf, haff] at hupd
      · have hrows : (updateProject idStr project db).2.rows =
            db.rows.map
              (fun r => if r.id = pid then applyProjectUpdate f project r else r) := by
          simp [updateProject, hvi, hvf, haff]
        obtain ⟨r0, hr0, h0⟩ : ∃ r0 ∈ db.rows, r0.id = pid := by
          by_contra hc
          apply haff
          rw [List.all_eq_true]
          intro r hr
          simp only [Bool.not_eq_true']
          by_contra hid
          simp at hid
          exact hc ⟨r, hr, hid⟩
        refine ⟨pid, rfl, ?_, ?_⟩
        · intro p hp hpid
          rw [getProjects] at hp
          obtain ⟨r, hrmem, hrp⟩ := List.mem_map.mp hp
          have hrfil : r ∈ (updateProject idStr project db).2.rows.filter
              (fun r => r.active) :=
            ((List.perm_insertionSort projectOrder _).mem_iff).mp hrmem
          have hract : r.active = true := by
            simpa using (List.mem_filter.mp hrfil).2
          have hrin : r ∈ (updateProject idStr project db).2.rows :=
            (List.mem_filter.mp hrfil).1
          rw [hrows] at hrin
          obtain ⟨rr, hrr, hrrr⟩ := List.mem_map.mp hrin
          have hrid : r.id = pid := by
            rw [← hrp] at hpid
            exact hpid
          by_cases hcase : rr.id = pid
          · rw [if_pos hcase] at hrrr
            have : r.active = project.active := by
              rw [← hrrr]
              rfl
            rw [hract, hinactive] at this
            cases this
          · rw [if_neg hcase] at hrrr
            rw [hrrr] at hcase
            exact hcase hrid
        · refine ⟨rowToAdminProject (applyProjectUpdate f project r0), ?_, ?_, ?_⟩
          · have hmem : applyProjectUpdate f project r0 ∈
                (updateProject idStr project db).2.rows := by
              rw [hrows]
              exact List.mem_map.mpr ⟨r0, hr0, by rw [if_pos h0]⟩
            simp only [getAllProjects]
            exact List.mem_map.mpr
              ⟨applyProjectUpdate f project r0,
               ((List.perm_insertionSort projectOrder _).mem_iff).mpr hmem, rfl⟩
          · rw [← h0]
            rfl
          · simp [rowToAdminProject, applyProjectUpdate, hinactive]

/-- Witness for C5: a one-row table, a valid deactivating payload. -/
theorem deactivate_hides_public_keeps_admin_witness :
    ((updateProject "1"
        ⟨0, "New title", "New description", "", "demo", "", "", ["K8s"], false⟩
        ⟨[⟨1, "Old", "Desc", "demo", none, none, none, 0, [], true, 0⟩], 2⟩).1.status
      = 200) ∧
    (∃ pid, ValidateInteger "1" "id" 1 999999 = .ok pid ∧
      (∀ p ∈ getProjects (updateProject "1"
          ⟨0, "New title", "New description", "", "demo", "", "", ["K8s"], false⟩
          ⟨[⟨1, "Old", "Desc", "demo", none, none, none, 0, [], true, 0⟩], 2⟩).2,
        p.id ≠ pid) ∧
      (∃ q ∈ (getAllProjects (updateProject "1"
          ⟨0, "New title", "New description", "", "demo", "", "", ["K8s"], false⟩
          ⟨[⟨1, "Old", "Desc", "demo", none, none, none, 0, [], true, 0⟩], 2⟩).2).projects,
        q.id = pid ∧ q.active = false)) :=
  ⟨rfl,
   deactivate_hides_public_keeps_admin "1"
     ⟨0, "New title", "New description", "", "demo", "", "", ["K8s"], false⟩
     ⟨[⟨1, "Old", "Desc", "demo", none, none, none, 0, [], true, 0⟩], 2⟩ rfl rfl⟩

end BrunoSite
